import Mathlib

set_option maxRecDepth 10000

/-!
Verification of the AI-Orchestration pipeline (plan -> execute -> validate -> compose).

Shallow embedding of the orchestration core:
  - src/orchestration/state.py          (AgentState, create_initial_state)
  - src/orchestration/agents/planner.py (planner_node)
  - src/orchestration/agents/worker.py  (worker_node)
  - src/orchestration/agents/critic.py  (critic_node)
  - src/orchestration/agents/synthesizer.py (synthesizer_node)
  - src/orchestration/graph.py          (should_retry, graph wiring)
  - src/orchestration/tools/db_tools.py (DBTools.find)
  - src/orchestration/tools/time.py     (calculate_ttft, calculate_total_time)
  - src/orchestration/memory/context_manager.py (estimate_tokens, pack_context)
  - src/orchestration/memory/store.py   (get_session_messages)
  - src/orchestration/memory/summarizer.py (summarize_messages)
  - src/api/routers/chat.py             (stream_chat_response: SSE relay)

Modelling conventions:
  - Wall-clock time is a logical clock: every call of time.time() (or
    datetime.utcnow().timestamp()) returns the current tick and advances the
    clock by one, so consecutive readings are strictly increasing.
  - The text-generation collaborator (llm_client.generate) is an oracle:
    an Option String per call, none meaning the call raised (or the client
    was missing), which the agents catch in their except-blocks.
  - The query collaborator backend (the motor cursor inside DBTools.find) is
    an oracle: per call index, Except errMsg docList; documents are opaque
    strings.  DBTools.find itself is embedded: on backend success it builds a
    status-ok result and logs it; on backend failure it logs an error entry
    in its own tool_call_logs and RAISES DBToolError (it never returns an
    error-status result to the caller).
  - Persistence side effects (save_message, insert_one, update_session_summary)
    do not feed back into the run; the summary persisted by pack_context is
    recorded in the result for observability.
-/

namespace Orch

/-- Split a character list at every character satisfying p, keeping empty
pieces (the semantics of Python str.split(sep) for a one-character sep,
and the basis of the whitespace split). -/
def splitChars (p : Char → Bool) : List Char → List (List Char)
  | [] => [[]]
  | c :: cs =>
    let r := splitChars p cs
    if p c then [] :: r
    else
      match r with
      | [] => [[c]]
      | h :: t => (c :: h) :: t

/-- Python str.split() with no argument: split on whitespace, dropping empty pieces. -/
def pyWords (s : String) : List String :=
  ((splitChars Char.isWhitespace s.toList).map String.mk).filter (fun t => t ≠ "")

/-- Python str.split('\n') (the only separator the sources split on). -/
def pyLines (s : String) : List String :=
  (splitChars (fun c => c == '\n') s.toList).map String.mk

/-- Python str.strip(): remove leading and trailing whitespace. -/
def pyStrip (s : String) : String :=
  String.mk (((s.toList.dropWhile Char.isWhitespace).reverse.dropWhile Char.isWhitespace).reverse)

/-- Python str.lower() (ASCII case folding, as in the sources). -/
def pyLower (s : String) : String :=
  String.mk (s.toList.map Char.toLower)

/-- Python str.upper() (ASCII case folding, as in the sources). -/
def pyUpper (s : String) : String :=
  String.mk (s.toList.map Char.toUpper)

/-- Python str.startswith(pre). -/
def pyStartsWith (s pre : String) : Bool :=
  s.toList.take pre.toList.length == pre.toList

/-- Python `c in s` for a single character. -/
def pyHasChar (s : String) (c : Char) : Bool :=
  s.toList.contains c

/-- Python s[:n] (character slicing). -/
def pyTake (s : String) (n : Nat) : String :=
  String.mk (s.toList.take n)

/-- Python sep.join(parts). -/
def pyIntercalate (sep : String) : List String → String
  | [] => ""
  | [x] => x
  | x :: y :: t => x ++ sep ++ pyIntercalate sep (y :: t)

/-- Character-list helper: the first list begins with the second one. -/
def leadsWith : List Char → List Char → Bool
  | _, [] => true
  | [], _ :: _ => false
  | a :: as, b :: bs => a == b && leadsWith as bs

/-- Character-list helper for Python substring containment: needle occurs in hay. -/
def containsSub : List Char → List Char → Bool
  | [], needle => needle.isEmpty
  | h :: t, needle => leadsWith (h :: t) needle || containsSub t needle

/-- Python `needle in hay` on strings (substring containment). -/
def strIn (needle hay : String) : Bool :=
  containsSub hay.toList needle.toList

/-- Python `s.split(c, 1)[1]`: everything after the first occurrence of c
(empty when c does not occur; call sites guard with `c in s`). -/
def afterFirst (c : Char) (s : String) : String :=
  String.mk ((s.toList.dropWhile (fun d => d != c)).drop 1)

/-- Python `s.lstrip('0123456789.-•')`. -/
def lstripMarkers (s : String) : String :=
  String.mk (s.toList.dropWhile (fun c => ("0123456789.-•".toList).contains c))

/-- Shared item test of planner/synthesizer parsing:
`line[0].isdigit() or line.startswith('-') or line.startswith('•')`. -/
def itemLead (s : String) : Bool :=
  match s.toList with
  | [] => false
  | c :: _ => c.isDigit || c == '-' || c == '•'

/-- Shared item extraction of planner/synthesizer parsing:
`line.split('.', 1)[-1].strip() if '.' in line else line.lstrip('0123456789.-•').strip()`. -/
def extractItem (line : String) : String :=
  if pyHasChar line '.' then pyStrip (afterFirst '.' line)
  else pyStrip (lstripMarkers line)

/-- Python dict-merge timing update `{**timings, stage: v}`: overwrite in place
if the key exists (dicts keep the original insertion position), else append. -/
def upsertTiming (l : List (String × Nat)) (k : String) (v : Nat) : List (String × Nat) :=
  if l.any (fun p => p.1 == k) then l.map (fun p => if p.1 == k then (k, v) else p)
  else l ++ [(k, v)]

/-- One persisted conversation turn (messages collection: role, content, timestamp).
Lists of Msg are kept in ascending-timestamp order, matching the
`sort("timestamp", 1)` of MemoryStore.get_session_messages. -/
structure Msg where
  role : String
  content : String
  timestamp : Nat
deriving Repr, DecidableEq

/-- Result dictionary of DBTools.find: either {status: "ok", count, data} or
{status: "error", error}. -/
inductive DbResult
  | ok (count : Nat) (data : List String)
  | err (msg : String)
deriving Repr, DecidableEq

/-- The "status" field of a DBTools result dictionary. -/
def DbResult.status : DbResult → String
  | .ok _ _ => "ok"
  | .err _ => "error"

/-- One tool-call log entry (shape shared by worker_node's tool_calls and
DBTools.tool_call_logs): tool name, args (collection, sessionId filter, limit),
result, latency, timestamp. -/
structure ToolCall where
  tool : String
  argsCollection : String
  argsSessionFilter : String
  argsLimit : Nat
  result : DbResult
  latencyMs : Nat
  timestamp : Nat
deriving Repr, DecidableEq

/-- The "data" payload of a worker finding: a document list from a db call,
the empty dict of a non-db subtask, or {"retry_attempt": n}. -/
inductive FData
  | docs (msgs : List String)
  | emptyObj
  | retryAttempt (n : Nat)
deriving Repr, DecidableEq

/-- One worker finding {task, result, data}. -/
structure Finding where
  task : String
  result : String
  fdata : FData
deriving Repr, DecidableEq

/-- AgentState of src/orchestration/state.py (the llm_client/db_tools/memory_store
dependency handles and the unused stream_tokens field are not data and are
modelled as oracles of the run functions instead). -/
structure AgentState where
  sessionId : String
  userId : String
  userPrompt : String
  context : String
  sessionSummary : Option String
  lastKTurns : List Msg
  subtasks : List String
  dataAccessPlan : String
  workerFindings : List Finding
  toolCalls : List ToolCall
  criticPassed : Bool
  criticFeedback : String
  retryCount : Nat
  finalAnswer : String
  suggestions : List String
  timings : List (String × Nat)
  requestStart : Nat
  firstTokenAt : Option Nat
  completedAt : Option Nat
  currentAgent : String
deriving Repr, DecidableEq

/-- create_initial_state of state.py: all output fields empty/zeroed,
request_start stamped from the clock. -/
def createInitialState (sessionId userId userPrompt context : String)
    (summary : Option String) (lastK : List Msg) (now : Nat) : AgentState :=
  { sessionId := sessionId
    userId := userId
    userPrompt := userPrompt
    context := context
    sessionSummary := summary
    lastKTurns := lastK
    subtasks := []
    dataAccessPlan := ""
    workerFindings := []
    toolCalls := []
    criticPassed := false
    criticFeedback := ""
    retryCount := 0
    finalAnswer := ""
    suggestions := []
    timings := []
    requestStart := now
    firstTokenAt := none
    completedAt := none
    currentAgent := "" }

/-- Node output: updated state plus the advanced clock. -/
structure StepOut where
  state : AgentState
  clock : Nat
deriving Repr

/-
## Planner (src/orchestration/agents/planner.py)
-/

/-- Parser state of planner_node's response loop. -/
structure PlanParseSt where
  inSub : Bool
  inPlan : Bool
  subtasks : List String
  dataPlan : String
deriving Repr, DecidableEq

/-- One iteration of planner_node's line loop. -/
def planParseLine (st : PlanParseSt) (raw : String) : PlanParseSt :=
  let line := pyStrip raw
  if pyStartsWith (pyUpper line) "SUBTASKS:" then
    { st with inSub := true, inPlan := false }
  else if pyStartsWith (pyUpper line) "DATA_PLAN:" || pyStartsWith (pyUpper line) "DATA PLAN:" then
    let afterColon := if pyHasChar line ':' then pyStrip (afterFirst ':' line) else ""
    { st with
      inPlan := true, inSub := false,
      dataPlan := if afterColon ≠ "" then st.dataPlan ++ afterColon ++ " " else st.dataPlan }
  else if st.inSub ∧ line ≠ "" then
    if itemLead line then
      let task := extractItem line
      if task ≠ "" ∧ task.length > 5 then { st with subtasks := st.subtasks ++ [task] }
      else st
    else st
  else if st.inPlan ∧ line ≠ "" then
    { st with dataPlan := st.dataPlan ++ line ++ " " }
  else st

/-- planner_node's parsing of the generation response into (subtasks, data_plan). -/
def plannerParse (response : String) : List String × String :=
  let st := (pyLines (pyStrip response)).foldl planParseLine ⟨false, false, [], ""⟩
  (st.subtasks, pyStrip st.dataPlan)

/-- Memory-referencing keywords of planner_node's parse-failure fallback. -/
def memoryKeywords : List String :=
  ["my", "our", "previous", "earlier", "last", "before",
   "conversation", "discussed", "mentioned", "said"]

/-- planner_node: `any(word in user_prompt.lower() for word in [...])`. -/
def needsHistory (userPrompt : String) : Bool :=
  memoryKeywords.any (fun w => strIn w (pyLower userPrompt))

/-- planner_node's deterministic fallback when zero subtasks were parsed. -/
def plannerFallback (userPrompt : String) : List String × String :=
  if needsHistory userPrompt then
    (["Retrieve conversation history to understand context",
      "Analyze user\x27s request: " ++ pyTake userPrompt 50,
      "Formulate contextual response based on history"],
     "Query messages collection for session history")
  else
    (["Understand the request: " ++ pyTake userPrompt 50,
      "Gather relevant information",
      "Prepare comprehensive response"],
     "No database access needed for this request")

/-- planner_node's critical fallback (except-branch: the generate call raised
or the llm_client was missing). -/
def plannerExceptFallback (userPrompt : String) : List String × String :=
  (["Process user request: " ++ pyTake userPrompt 60,
    "Gather necessary information",
    "Prepare appropriate response"],
   "Assess if database query needed during execution")

/-- planner_node.  resp is the generation oracle (none = the call raised). -/
def plannerNode (resp : Option String) (clock : Nat) (s : AgentState) : StepOut :=
  let t0 := clock
  let pair :=
    match resp with
    | none => plannerExceptFallback s.userPrompt
    | some response =>
      let parsed := plannerParse response
      let chosen := if parsed.1.isEmpty then plannerFallback s.userPrompt else parsed
      (chosen.1,
       if chosen.2 = "" then "Determine data needs based on request context" else chosen.2)
  let t1 := clock + 1
  { state := { s with subtasks := pair.1,
                      dataAccessPlan := pair.2,
                      currentAgent := "planner",
                      timings := upsertTiming s.timings "planner" (t1 - t0) }
    clock := clock + 2 }

/-
## Worker (src/orchestration/agents/worker.py) and DBTools.find (db_tools.py)
-/

/-- worker_node's data-access keyword list (case-insensitive substring match). -/
def dbKeywords : List String :=
  ["query", "fetch", "retrieve", "history", "data", "conversation",
   "previous", "earlier", "past", "messages"]

/-- worker_node: `any(keyword in task.lower() for keyword in [...])`. -/
def needsDbAccess (task : String) : Bool :=
  dbKeywords.any (fun k => strIn k (pyLower task))

/-- Accumulator of worker_node's subtask loop.  dbLogs are the entries that
DBTools.find appends to its own tool_call_logs (one per call, ok or error);
toolCalls is the state's tool_calls list (appended only after a successful
find, since an error makes find raise before worker_node can log it). -/
structure WorkerAcc where
  findings : List Finding
  toolCalls : List ToolCall
  dbLogs : List ToolCall
  callIdx : Nat
  clock : Nat
deriving Repr

/-- One iteration of worker_node's subtask loop, with DBTools.find inlined.
Ticks consumed, in source order: task_start; then for a db subtask:
find's start_time, find's latency reading, find's log timestamp,
worker's tool_call_log timestamp (successful calls only). -/
def workerStep (sessionId : String) (dbOracle : Nat → Except String (List String))
    (acc : WorkerAcc) (task : String) : WorkerAcc :=
  let c0 := acc.clock + 1
  if needsDbAccess task then
    let tStart := c0
    match dbOracle acc.callIdx with
    | Except.ok data =>
      let tEnd := c0 + 1
      let latency := tEnd - tStart
      let result := DbResult.ok data.length data
      let dbLog : ToolCall :=
        { tool := "db.find", argsCollection := "messages", argsSessionFilter := sessionId,
          argsLimit := 50, result := result, latencyMs := latency, timestamp := c0 + 2 }
      let tc : ToolCall := { dbLog with timestamp := c0 + 3 }
      { findings := acc.findings ++
          [{ task := task,
             result := "Retrieved " ++ toString data.length ++ " messages from conversation history",
             fdata := FData.docs data }]
        toolCalls := acc.toolCalls ++ [tc]
        dbLogs := acc.dbLogs ++ [dbLog]
        callIdx := acc.callIdx + 1
        clock := c0 + 4 }
    | Except.error e =>
      let tEnd := c0 + 1
      let latency := tEnd - tStart
      let dbLog : ToolCall :=
        { tool := "db.find", argsCollection := "messages", argsSessionFilter := sessionId,
          argsLimit := 50, result := DbResult.err e, latencyMs := latency, timestamp := c0 + 2 }
      { findings := acc.findings ++
          [{ task := task, result := "Error fetching data: " ++ e, fdata := FData.docs [] }]
        toolCalls := acc.toolCalls
        dbLogs := acc.dbLogs ++ [dbLog]
        callIdx := acc.callIdx + 1
        clock := c0 + 3 }
  else
    { acc with
      findings := acc.findings ++
        [{ task := task, result := "Completed: " ++ task, fdata := FData.emptyObj }]
      clock := c0 }

/-- Node output of worker_node: also threads the db-call index and the entries
appended to DBTools' own log. -/
structure WorkerOut where
  state : AgentState
  clock : Nat
  callIdx : Nat
  dbLogs : List ToolCall
deriving Repr

/-- worker_node: findings start FRESH each pass, tool_calls start from the
state's accumulated list; a synthetic retry finding is appended when
retry_count > 0 on entry. -/
def workerNode (dbOracle : Nat → Except String (List String)) (callIdx clock : Nat)
    (s : AgentState) : WorkerOut :=
  let t0 := clock
  let acc0 : WorkerAcc := ⟨[], s.toolCalls, [], callIdx, clock + 1⟩
  let acc := s.subtasks.foldl (workerStep s.sessionId dbOracle) acc0
  let findings :=
    if s.retryCount > 0 then
      acc.findings ++
        [{ task := "retry_adjustment", result := "Re-executed tasks with improved strategy",
           fdata := FData.retryAttempt s.retryCount }]
    else acc.findings
  let t1 := acc.clock
  { state := { s with workerFindings := findings,
                      toolCalls := acc.toolCalls,
                      currentAgent := "worker",
                      timings := upsertTiming s.timings "worker" (t1 - t0) }
    clock := acc.clock + 1
    callIdx := acc.callIdx
    dbLogs := acc.dbLogs }

/-
## Critic (src/orchestration/agents/critic.py)
-/

/-- critic_node check 2 helper: `[tc for tc in tool_calls if tc.get("result", {}).get("status") != "ok"]`. -/
def criticFailedToolCount (tcs : List ToolCall) : Nat :=
  (tcs.filter (fun tc => tc.result.status ≠ "ok")).length

/-- critic_node check 3 helper: overlap of the first 5 (case-folded, deduplicated)
prompt words with the concatenated finding-result text. -/
def relevanceScore (userPrompt : String) (findings : List Finding) : Nat :=
  let kws := ((pyWords (pyLower userPrompt)).take 5).dedup
  let ftext := pyLower (pyIntercalate " " (findings.map (fun f => f.result)))
  (kws.filter (fun kw => strIn kw ftext)).length

/-- critic_node's validation logic: sequential checks, each failing one
overwriting (passed, feedback). -/
def criticDecision (s : AgentState) : Bool × String :=
  let pf0 := (true, "Worker output validated successfully.")
  let pf1 :=
    if s.workerFindings.isEmpty then (false, "No findings returned by Worker.") else pf0
  let pf2 :=
    if s.toolCalls.isEmpty then pf1
    else
      let failed := criticFailedToolCount s.toolCalls
      if failed ≠ 0 then
        (false, "Tool calls failed: " ++ toString failed ++ " failures detected.")
      else pf1
  if relevanceScore s.userPrompt s.workerFindings = 0 then
    (false, "Worker findings may not be relevant to user request.")
  else pf2

/-- critic_node: `new_retry_count = retry_count + 1 if not passed else retry_count`
(the increment is NOT guarded by retry_count < 1 in the source). -/
def criticNode (clock : Nat) (s : AgentState) : StepOut :=
  let t0 := clock
  let pf := criticDecision s
  let newRetry := if pf.1 then s.retryCount else s.retryCount + 1
  let t1 := clock + 1
  { state := { s with criticPassed := pf.1,
                      criticFeedback := pf.2,
                      retryCount := newRetry,
                      currentAgent := "critic",
                      timings := upsertTiming s.timings "critic" (t1 - t0) }
    clock := clock + 2 }

/-
## Synthesizer (src/orchestration/agents/synthesizer.py)
-/

/-- Parser state of synthesizer_node's response loop. -/
structure SynthParseSt where
  inAnswer : Bool
  inSugg : Bool
  answerLines : List String
  suggestions : List String
deriving Repr, DecidableEq

/-- One iteration of synthesizer_node's line loop. -/
def synthParseLine (st : SynthParseSt) (raw : String) : SynthParseSt :=
  let line := pyStrip raw
  if pyStartsWith (pyUpper line) "ANSWER:" then
    let afterColon := if pyHasChar line ':' then pyStrip (afterFirst ':' line) else ""
    { st with
      inAnswer := true, inSugg := false,
      answerLines := if afterColon ≠ "" then st.answerLines ++ [afterColon] else st.answerLines }
  else if pyStartsWith (pyUpper line) "SUGGESTIONS:" then
    { st with inSugg := true, inAnswer := false }
  else if st.inAnswer ∧ line ≠ "" then
    { st with answerLines := st.answerLines ++ [line] }
  else if st.inSugg ∧ line ≠ "" then
    if itemLead line then
      let sug := extractItem line
      if sug ≠ "" ∧ sug.length > 5 then { st with suggestions := st.suggestions ++ [sug] }
      else st
    else st
  else st

/-- The fixed ordered filler suggestions of synthesizer_node. -/
def defaultSuggestions : List String :=
  ["Can you tell me more about this?",
   "What else would you like to know?",
   "Should we explore this topic further?"]

/-- Closed form of synthesizer_node's padding loop
`while len(suggestions) < 3: suggestions.append(default_suggestions[len(suggestions)])`:
each pass appends the default at the current length, so starting from length
n < 3 appends exactly default_suggestions[n:], and a list of length >= 3
is unchanged. -/
def padSuggestions (l : List String) : List String :=
  if l.length < 3 then l ++ defaultSuggestions.drop l.length else l

/-- The exception-fallback suggestions of synthesizer_node. -/
def exceptSuggestions : List String :=
  ["Tell me more about what you need",
   "Can you clarify your question?",
   "What would you like to know next?"]

/-- The exception-fallback answer of synthesizer_node
(worker_findings[0].get('result', ...) is f.result here since the model's
findings always carry a result). -/
def synthExceptAnswer (userPrompt : String) (findings : List Finding) : String :=
  let a0 := "I received your message: \x27" ++ userPrompt ++ "\x27. "
  let a1 :=
    match findings with
    | [] => a0
    | f :: _ => a0 ++ "Analysis shows: " ++ f.result ++ ". "
  a1 ++ "How can I help you further?"

/-- The parse-failure answer fallback chain of synthesizer_node. -/
def synthAnswerFallback (response userPrompt : String) (findings : List Finding) : String :=
  if response.length > 20 ∧ ¬ pyStartsWith response "ANSWER:" then pyStrip response
  else
    let a := "I understand you\x27re asking about: " ++ userPrompt ++ ". "
    match findings with
    | [] => a ++ "Let me help you with that."
    | f :: _ => a ++ "Based on my analysis: " ++ f.result

/-- synthesizer_node.  resp is the generation oracle (none = the call raised);
completed_at is stamped on exit (and the same reading also closes the stage
duration). -/
def synthesizerNode (resp : Option String) (clock : Nat) (s : AgentState) : StepOut :=
  let t0 := clock
  let outcome :=
    match resp with
    | none => (synthExceptAnswer s.userPrompt s.workerFindings, exceptSuggestions)
    | some response =>
      let st := (pyLines (pyStrip response)).foldl synthParseLine ⟨false, false, [], []⟩
      let fa0 := pyStrip (pyIntercalate " " st.answerLines)
      let finalAnswer :=
        if fa0 = "" then synthAnswerFallback response s.userPrompt s.workerFindings else fa0
      (finalAnswer, (padSuggestions st.suggestions).take 3)
  let completedAt := clock + 1
  { state := { s with finalAnswer := outcome.1,
                      suggestions := outcome.2,
                      completedAt := some completedAt,
                      currentAgent := "synthesizer",
                      timings := upsertTiming s.timings "synthesizer" (completedAt - t0) }
    clock := clock + 2 }

/-
## Pipeline controller (src/orchestration/graph.py)
-/

/-- should_retry of graph.py, evaluated on the state AFTER critic_node ran:
"worker" iff not critic_passed and retry_count < 1. -/
def shouldRetry (s : AgentState) : String :=
  if ¬ s.criticPassed ∧ s.retryCount < 1 then "worker" else "synthesizer"

/-- Collaborator oracles of one request. -/
structure Oracles where
  plannerResp : Option String
  synthResp : Option String
  dbData : Nat → Except String (List String)

/-- Result of running the graph: the astream trace (node name, updated state),
the final state, the clock, and DBTools' accumulated internal log. -/
structure PipeOut where
  trace : List (String × AgentState)
  state : AgentState
  clock : Nat
  dbLogs : List ToolCall

/-- The critic -> worker retry cycle of the compiled graph: while should_retry
returns "worker", run worker then critic again.  fuel bounds the unrolling;
the loop in fact always exits immediately (see shouldRetry_after_critic). -/
def criticLoop (o : Oracles) : Nat → AgentState → Nat → Nat →
    List (String × AgentState) → List ToolCall → PipeOut
  | 0, s, clock, _, tr, logs => ⟨tr, s, clock, logs⟩
  | fuel + 1, s, clock, ci, tr, logs =>
    if shouldRetry s = "worker" then
      let w := workerNode o.dbData ci clock s
      let cr := criticNode w.clock w.state
      criticLoop o fuel cr.state cr.clock w.callIdx
        (tr ++ [("worker", w.state), ("critic", cr.state)]) (logs ++ w.dbLogs)
    else ⟨tr, s, clock, logs⟩

/-- graph.astream of create_agent_graph: planner -> worker -> critic ->
(conditional retry cycle) -> synthesizer, yielding one (node, state) event
per executed node. -/
def runPipeline (o : Oracles) (fuel clock : Nat) (s0 : AgentState) : PipeOut :=
  let p := plannerNode o.plannerResp clock s0
  let w := workerNode o.dbData 0 p.clock p.state
  let cr := criticNode w.clock w.state
  let mid := criticLoop o fuel cr.state cr.clock w.callIdx
    [("planner", p.state), ("worker", w.state), ("critic", cr.state)] w.dbLogs
  let sy := synthesizerNode o.synthResp mid.clock mid.state
  ⟨mid.trace ++ [("synthesizer", sy.state)], sy.state, sy.clock, mid.dbLogs⟩

/-- The planner stage of a run (helper naming the intermediate states). -/
def stage1 (o : Oracles) (clock : Nat) (s0 : AgentState) : StepOut :=
  plannerNode o.plannerResp clock s0

/-- The worker stage of a run. -/
def stage2 (o : Oracles) (clock : Nat) (s0 : AgentState) : WorkerOut :=
  workerNode o.dbData 0 (stage1 o clock s0).clock (stage1 o clock s0).state

/-- The critic stage of a run. -/
def stage3 (o : Oracles) (clock : Nat) (s0 : AgentState) : StepOut :=
  criticNode (stage2 o clock s0).clock (stage2 o clock s0).state

/-- The synthesizer stage of a run. -/
def stage4 (o : Oracles) (clock : Nat) (s0 : AgentState) : StepOut :=
  synthesizerNode o.synthResp (stage3 o clock s0).clock (stage3 o clock s0).state

/-
## Memory subsystem (store.py, summarizer.py, context_manager.py)
-/

/-- MemoryStore.get_session_messages: msgs is the session's persisted history in
ascending-timestamp order; a truthy limit keeps the most recent limit messages
(skip = max(0, total - limit), then limit). -/
def getSessionMessages (msgs : List Msg) (limit : Option Nat) : List Msg :=
  match limit with
  | none => msgs
  | some l => if l = 0 then msgs else (msgs.drop (msgs.length - l)).take l

/-- summarize_messages of summarizer.py (deterministic heuristic summary). -/
def summarizeMessages (messages : List Msg) (targetTokens : Nat) : String :=
  if messages.isEmpty then ""
  else
    let userMsgs := messages.filter (fun m => m.role == "user")
    let assistantMsgs := messages.filter (fun m => m.role == "assistant")
    let parts0 := ["Conversation history: " ++ toString messages.length ++ " total messages",
                   "User asked about: " ++ toString userMsgs.length ++ " topics",
                   "Assistant provided: " ++ toString assistantMsgs.length ++ " responses"]
    let parts :=
      match userMsgs with
      | [] => parts0
      | u0 :: rest =>
        let p1 := parts0 ++ ["Initial topic: " ++ pyTake u0.content 100 ++ "..."]
        if rest.isEmpty then p1
        else p1 ++ ["Recent topic: " ++ pyTake ((u0 :: rest).getLast (by simp)).content 100 ++ "..."]
    let summary := pyIntercalate " | " parts
    let maxChars := targetTokens * 4
    if summary.length > maxChars then pyTake summary maxChars ++ "..." else summary

/-- estimate_tokens of context_manager.py: math.ceil(len(text) / 4),
which for natural sizes is (len + 3) / 4 in integer arithmetic. -/
def estimateTokens (text : String) : Nat :=
  (text.length + 3) / 4

/-- The constant system preamble of pack_context. -/
def systemMeta : String :=
  "You are a helpful AI assistant. Answer based on conversation history and current request."

/-- The recent-turns block of pack_context: starts with the header line, then
one "ROLE: content" line per message. -/
def turnsBlock (recent : List Msg) : String :=
  recent.foldl (fun acc m => acc ++ "\n" ++ pyUpper m.role ++ ": " ++ m.content)
    "\n[Recent Conversation]"

/-- context_parts assembly of pack_context: system preamble; summary block only
if a (truthy) summary exists; recent-turns block only if turns exist; current
prompt block. -/
def buildParts (summaryOpt : Option String) (recent : List Msg) (prompt : String) :
    List String :=
  let base := [systemMeta]
  let base :=
    match summaryOpt with
    | some su => if su ≠ "" then base ++ ["\n[Session Summary]\n" ++ su] else base
    | none => base
  let base := if recent.isEmpty then base else base ++ [turnsBlock recent]
  base ++ ["\n[Current Request]\nUSER: " ++ prompt]

/-- Result of pack_context, plus the summary persisted via
update_session_summary (none when the re-summarization branch did not run). -/
structure PackResult where
  context : String
  summary : Option String
  lastKTurns : List Msg
  tokenCount : Nat
  summaryUpdated : Bool
  summaryPersisted : Option String
deriving Repr, DecidableEq

/-- pack_context of ContextManager: fetch summary and the last K messages,
assemble the context, and re-summarize iff the token estimate exceeds the
budget AND len(recent_messages) > K; the branch rewrites context_parts[1]
with the new summary and recounts once. -/
def packContext (summary0 : Option String) (msgs : List Msg) (K budget : Nat)
    (prompt : String) : PackResult :=
  let recent := getSessionMessages msgs (some K)
  let parts := buildParts summary0 recent prompt
  let fullContext := pyIntercalate "\n" parts
  let tokenCount := estimateTokens fullContext
  if tokenCount > budget ∧ recent.length > K then
    let allMsgs := getSessionMessages msgs none
    let newSummary := summarizeMessages allMsgs 500
    let parts2 := parts.set 1 ("\n[Session Summary]\n" ++ newSummary)
    let full2 := pyIntercalate "\n" parts2
    ⟨full2, some newSummary, recent, estimateTokens full2, true, some newSummary⟩
  else
    ⟨fullContext, summary0, recent, tokenCount, false, none⟩

/-
## SSE relay (src/api/routers/chat.py, stream_chat_response)
-/

/-- The SSE events of the streaming wire protocol. -/
inductive SSEEvent
  | agent (name : String)
  | toolCallStarted (tool collection sessionFilter : String) (limit : Nat)
  | toolCallCompleted (tool : String) (ok : Bool) (latencyMs : Nat)
  | token (text : String)
  | done (fullText : String) (suggestions : List String)
      (ttftMs totalMs : Option Nat)
deriving Repr, DecidableEq

/-- The started/completed event pair emitted per tool call of the worker node. -/
def toolEvents (tcs : List ToolCall) : List SSEEvent :=
  tcs.foldr
    (fun tc acc =>
      SSEEvent.toolCallStarted tc.tool tc.argsCollection tc.argsSessionFilter tc.argsLimit ::
      SSEEvent.toolCallCompleted tc.tool (tc.result.status == "ok") tc.latencyMs :: acc)
    []

/-- Accumulator of the relay loop over astream events. -/
structure RelayAcc where
  events : List SSEEvent
  firstTokenAt : Option Nat
  clock : Nat
deriving Repr

/-- One iteration of the astream relay loop: emit the agent event; for the
worker node with a non-empty tool_calls list, one started and one completed
event per call; for the synthesizer node, one token event per
whitespace-delimited word of final_answer with a trailing space, stamping
first_token_at (one clock reading) at the first word only. -/
def relayStep (acc : RelayAcc) (entry : String × AgentState) : RelayAcc :=
  let ev0 := acc.events ++ [SSEEvent.agent entry.1]
  if entry.1 = "worker" ∧ entry.2.toolCalls ≠ [] then
    { acc with events := ev0 ++ toolEvents entry.2.toolCalls }
  else if entry.1 = "synthesizer" then
    match pyWords entry.2.finalAnswer with
    | [] => { acc with events := ev0 }
    | w :: ws =>
      { events := ev0 ++ ((w :: ws).map (fun x => SSEEvent.token (x ++ " "))),
        firstTokenAt := if acc.firstTokenAt.isNone then some acc.clock else acc.firstTokenAt,
        clock := if acc.firstTokenAt.isNone then acc.clock + 1 else acc.clock }
  else { acc with events := ev0 }

/-- calculate_ttft of tools/time.py: (first_token_at - request_start) * 1000,
None when no first token was stamped. -/
def calcTtft (requestStart : Nat) (firstTokenAt : Option Nat) : Option Nat :=
  match firstTokenAt with
  | none => none
  | some t => some ((t - requestStart) * 1000)

/-- calculate_total_time of tools/time.py: (completed_at - request_start) * 1000,
None when completed_at is unset. -/
def calcTotal (requestStart : Nat) (completedAt : Option Nat) : Option Nat :=
  match completedAt with
  | none => none
  | some t => some ((t - requestStart) * 1000)

/-- The request input of stream_chat_response: identifiers, prompt, and the
session's persisted summary and message history (ascending timestamps). -/
structure ChatInput where
  sessionId : String
  userId : String
  prompt : String
  summary0 : Option String
  msgs : List Msg

/-- The observable outcome of one streamed request. -/
structure RunOutcome where
  trace : List (String × AgentState)
  events : List SSEEvent
  finalState : AgentState
  ttftMs : Option Nat
  totalMs : Option Nat
  doneFullText : String
  doneSuggestions : List String
  dbLogs : List ToolCall

/-- stream_chat_response of chat.py on the success path: pack the context
(K = 10, budget = 3000 defaults), create the initial state (one clock reading
for request_start), run the graph, relay its events, then compute ttft/total
and emit the terminal done event.  Persistence writes are external and do not
feed back into the run. -/
def streamChat (inp : ChatInput) (o : Oracles) (fuel : Nat) : RunOutcome :=
  let pack := packContext inp.summary0 inp.msgs 10 3000 inp.prompt
  let s0 := createInitialState inp.sessionId inp.userId inp.prompt pack.context
    pack.summary pack.lastKTurns 0
  let P := runPipeline o fuel 1 s0
  let r := P.trace.foldl relayStep ⟨[], none, P.clock⟩
  let finalState := { P.state with firstTokenAt := r.firstTokenAt }
  let ttft := calcTtft finalState.requestStart finalState.firstTokenAt
  let total := calcTotal finalState.requestStart finalState.completedAt
  ⟨P.trace,
   r.events ++ [SSEEvent.done finalState.finalAnswer finalState.suggestions ttft total],
   finalState, ttft, total, finalState.finalAnswer, finalState.suggestions, P.dbLogs⟩

/-- The texts of the token events of an event list, in emission order. -/
def tokenTexts (evs : List SSEEvent) : List String :=
  evs.filterMap (fun e => match e with | SSEEvent.token t => some t | _ => none)

/-
## Claim-following restatements (for the refinement-style claims)
-/

/-- Claim wording (C10), check 1: the findings list is empty. -/
def checkNoFindings (s : AgentState) : Bool :=
  s.workerFindings.isEmpty

/-- Claim wording (C10), check 2: some tool call's result status is not ok. -/
def checkToolFailures (s : AgentState) : Bool :=
  s.toolCalls.any (fun tc => tc.result.status ≠ "ok")

/-- Claim wording (C10), check 3: the relevance heuristic yields zero overlap. -/
def checkNotRelevant (s : AgentState) : Bool :=
  relevanceScore s.userPrompt s.workerFindings = 0

/-- Claim-following restatement (C10): report the message of the LAST failing
check in the fixed order (no-findings, then tool-failures, then relevance). -/
def lastFailingFeedback (s : AgentState) : String :=
  if checkNotRelevant s then "Worker findings may not be relevant to user request."
  else if checkToolFailures s then
    "Tool calls failed: " ++ toString (criticFailedToolCount s.toolCalls) ++ " failures detected."
  else if checkNoFindings s then "No findings returned by Worker."
  else "Worker output validated successfully."

/-
## Derived views of worker_node (used to state the accumulation claims)
-/

/-- The synthetic finding worker_node appends on a retry pass. -/
def retryFinding (n : Nat) : Finding :=
  { task := "retry_adjustment", result := "Re-executed tasks with improved strategy",
    fdata := FData.retryAttempt n }

/-- The accumulator after worker_node's whole subtask loop. -/
def workerPassAcc (d : Nat → Except String (List String)) (ci clock : Nat)
    (s : AgentState) : WorkerAcc :=
  s.subtasks.foldl (workerStep s.sessionId d) ⟨[], s.toolCalls, [], ci, clock + 1⟩

/-- The tool-call entries one worker pass appends (the loop run with an empty
starting tool_calls list). -/
def workerNewCalls (d : Nat → Except String (List String)) (ci clock : Nat)
    (s : AgentState) : List ToolCall :=
  (s.subtasks.foldl (workerStep s.sessionId d) ⟨[], [], [], ci, clock + 1⟩).toolCalls

/-- The number of data-access subtasks whose backend call, at the running call
index, succeeds.  Worker_node appends exactly one tool-call entry to the
request state for each of these, and none for erroring or non-data subtasks. -/
def dbSuccessCount (d : Nat → Except String (List String)) :
    List String → Nat → Nat
  | [], _ => 0
  | t :: ts, i =>
    if needsDbAccess t then
      (match d i with
       | Except.ok _ => 1
       | Except.error _ => 0) + dbSuccessCount d ts (i + 1)
    else dbSuccessCount d ts i

/-
## Concrete runs (inputs of the counterexample and divergence theorems)
-/

/-- A fresh request state used by the node-level concrete runs. -/
def sampleState : AgentState :=
  createInitialState "s1" "u1" "hello" "ctx" none [] 0

/-- Oracles of a run whose single validation fails: the planned subtask text
shares no word with the prompt, so the relevance check yields zero overlap. -/
def c1Oracles : Oracles :=
  { plannerResp := some "SUBTASKS:\n1. Think deeply about it\nDATA_PLAN: reflection only",
    synthResp := some "ANSWER: Greetings to you\nSUGGESTIONS:\n1. Continue the discussion",
    dbData := fun _ => Except.ok [] }

/-- A fresh session asking "hello". -/
def c1Input : ChatInput := ⟨"s1", "u1", "hello", none, []⟩

/-- Oracles whose synthesizer response is whitespace only and longer than 20
characters: the parsed answer is empty and the raw-response fallback strips it
to the empty string, so zero token events are emitted. -/
def c3bOracles : Oracles :=
  { plannerResp := some "SUBTASKS:\n1. Think deeply about it\nDATA_PLAN: quiet reflection",
    synthResp := some "                         ",
    dbData := fun _ => Except.ok [] }

/-- A fresh session asking "ping". -/
def c3bInput : ChatInput := ⟨"s3", "u1", "ping", none, []⟩

/-- A state with one data-access subtask ("fetch" keyword). -/
def c6State : AgentState := { sampleState with subtasks := ["fetch recent records"] }

/-- A query backend that always raises. -/
def c6Oracle : Nat → Except String (List String) := fun _ => Except.error "boom"

/-- A query backend that always succeeds with two documents. -/
def c6OkOracle : Nat → Except String (List String) :=
  fun _ => Except.ok ["docA", "docB"]

/-- A finding from a previous worker pass. -/
def c7Prior : Finding := ⟨"old task", "Old finding result", FData.emptyObj⟩

/-- A retry-pass entry state: one prior finding, retry_count 1, one non-data
subtask. -/
def c7State : AgentState :=
  { sampleState with workerFindings := [c7Prior], retryCount := 1,
                     subtasks := ["Review the gathered info"] }

/-- A query backend that always succeeds with no documents. -/
def c7Oracle : Nat → Except String (List String) := fun _ => Except.ok []

/-- A generation response with four well-formed subtask items. -/
def c8Resp : String :=
  "SUBTASKS:\n1. Gather background information\n2. Check recent conversation logs\n3. Summarize current findings\n4. Draft a complete answer\nDATA_PLAN: none needed"

/-- A 13000-character prompt: the assembled context exceeds the 3000-token
budget. -/
def c2Prompt : String := String.mk (List.replicate 13000 'a')

/-- A session with 15 persisted turns (more than K = 10). -/
def c2Msgs : List Msg := (List.range 15).map (fun i => ⟨"user", "hi", i⟩)

/-
## Controller lemmas
-/

/-- After critic_node runs, should_retry always routes to the synthesizer:
on a failed validation the critic has already incremented retry_count to at
least 1, so the retry condition retry_count < 1 is false at the moment the
conditional edge is evaluated. -/
theorem shouldRetry_after_critic (c : Nat) (s : AgentState) :
    shouldRetry (criticNode c s).state = "synthesizer" := by
  cases h : (criticDecision s).1 <;>
    simp [criticNode, shouldRetry, h]

/-- The retry cycle exits immediately whenever should_retry picks the
synthesizer. -/
theorem criticLoop_exit (o : Oracles) (fuel : Nat) (s : AgentState) (clock ci : Nat)
    (tr : List (String × AgentState)) (logs : List ToolCall)
    (h : shouldRetry s = "synthesizer") :
    criticLoop o fuel s clock ci tr logs = ⟨tr, s, clock, logs⟩ := by
  cases fuel with
  | zero => rfl
  | succ n =>
    simp only [criticLoop, h]
    rw [if_neg (by decide)]

/-- Every run of the graph, for every fuel, is the straight line
planner, worker, critic, synthesizer. -/
theorem runPipeline_eq (o : Oracles) (fuel c : Nat) (s0 : AgentState) :
    runPipeline o fuel c s0 =
      { trace := [("planner", (stage1 o c s0).state), ("worker", (stage2 o c s0).state),
                  ("critic", (stage3 o c s0).state), ("synthesizer", (stage4 o c s0).state)],
        state := (stage4 o c s0).state,
        clock := (stage4 o c s0).clock,
        dbLogs := (stage2 o c s0).dbLogs } := by
  simp only [runPipeline, stage1, stage2, stage3, stage4,
    criticLoop_exit _ _ _ _ _ _ _ (shouldRetry_after_critic _ _)]
  rfl

/-
## retry_count bookkeeping lemmas
-/

/-- planner_node does not write retry_count. -/
theorem plannerNode_retryCount (r : Option String) (c : Nat) (s : AgentState) :
    (plannerNode r c s).state.retryCount = s.retryCount := by
  cases r <;> rfl

/-- worker_node does not write retry_count. -/
theorem workerNode_retryCount (d : Nat → Except String (List String)) (ci c : Nat)
    (s : AgentState) : (workerNode d ci c s).state.retryCount = s.retryCount := rfl

/-- synthesizer_node does not write retry_count. -/
theorem synthesizerNode_retryCount (r : Option String) (c : Nat) (s : AgentState) :
    (synthesizerNode r c s).state.retryCount = s.retryCount := by
  cases r <;> rfl

/-- synthesizer_node does not write critic_passed. -/
theorem synthesizerNode_criticPassed (r : Option String) (c : Nat) (s : AgentState) :
    (synthesizerNode r c s).state.criticPassed = s.criticPassed := by
  cases r <;> rfl

/-- critic_node increments retry_count exactly when validation failed. -/
theorem criticNode_retryCount (c : Nat) (s : AgentState) :
    (criticNode c s).state.retryCount =
      if (criticNode c s).state.criticPassed then s.retryCount else s.retryCount + 1 := rfl

/-- retry_count along the four stages of a run starting at 0. -/
theorem stage_retry_facts (o : Oracles) (c : Nat) (s0 : AgentState) (h0 : s0.retryCount = 0) :
    (stage1 o c s0).state.retryCount = 0 ∧
    (stage2 o c s0).state.retryCount = 0 ∧
    (stage3 o c s0).state.retryCount =
      (if (stage3 o c s0).state.criticPassed then 0 else 1) ∧
    (stage4 o c s0).state.retryCount =
      (if (stage4 o c s0).state.criticPassed then 0 else 1) := by
  have h1 : (stage1 o c s0).state.retryCount = 0 := by
    rw [stage1, plannerNode_retryCount, h0]
  have h2 : (stage2 o c s0).state.retryCount = 0 := by
    rw [stage2, workerNode_retryCount, h1]
  have h3 : (stage3 o c s0).state.retryCount =
      (if (stage3 o c s0).state.criticPassed then 0 else 1) := by
    rw [stage3, criticNode_retryCount, h2]
  have h4 : (stage4 o c s0).state.retryCount =
      (if (stage4 o c s0).state.criticPassed then 0 else 1) := by
    rw [stage4, synthesizerNode_retryCount, synthesizerNode_criticPassed, h3]
  exact ⟨h1, h2, h3, h4⟩

/-- retry_count stays in {0, 1} at every traced state of a streamed request,
and ends at 1 exactly when the (single) validation failed. -/
theorem streamChat_retry_facts (inp : ChatInput) (o : Oracles) (fuel : Nat) :
    (streamChat inp o fuel).trace.all (fun p => p.2.retryCount ≤ 1) = true ∧
    (streamChat inp o fuel).finalState.retryCount =
      (if (streamChat inp o fuel).finalState.criticPassed then 0 else 1) := by
  simp only [streamChat, runPipeline_eq]
  obtain ⟨h1, h2, h3, h4⟩ := stage_retry_facts o 1
    (createInitialState inp.sessionId inp.userId inp.prompt
      (packContext inp.summary0 inp.msgs 10 3000 inp.prompt).context
      (packContext inp.summary0 inp.msgs 10 3000 inp.prompt).summary
      (packContext inp.summary0 inp.msgs 10 3000 inp.prompt).lastKTurns 0) rfl
  constructor
  · simp only [List.all_cons, List.all_nil, Bool.and_true, Bool.and_eq_true,
      decide_eq_true_eq]
    refine ⟨by simp [h1], by simp [h2], ?_, ?_⟩
    · rw [h3]
      split <;> omega
    · rw [h4]
      split <;> omega
  · exact h4

/-
## Relay lemmas
-/

/-- The relay on a planner event only appends the agent event. -/
theorem relayStep_planner (acc : RelayAcc) (st : AgentState) :
    relayStep acc ("planner", st) =
      { acc with events := acc.events ++ [SSEEvent.agent "planner"] } := by
  unfold relayStep
  dsimp only
  rw [if_neg (fun h => absurd h.1 (by decide)), if_neg (by decide)]

/-- The relay on a critic event only appends the agent event. -/
theorem relayStep_critic (acc : RelayAcc) (st : AgentState) :
    relayStep acc ("critic", st) =
      { acc with events := acc.events ++ [SSEEvent.agent "critic"] } := by
  unfold relayStep
  dsimp only
  rw [if_neg (fun h => absurd h.1 (by decide)), if_neg (by decide)]

/-- The relay on a worker event appends the agent event and, when tool calls
exist, a started/completed pair per call. -/
theorem relayStep_worker (acc : RelayAcc) (st : AgentState) :
    relayStep acc ("worker", st) =
      if st.toolCalls = [] then { acc with events := acc.events ++ [SSEEvent.agent "worker"] }
      else { acc with
        events := (acc.events ++ [SSEEvent.agent "worker"]) ++ toolEvents st.toolCalls } := by
  unfold relayStep
  dsimp only
  by_cases h : st.toolCalls = []
  · rw [if_neg (fun hc => absurd hc.2 (by simp [h])), if_neg (by decide), if_pos h]
  · rw [if_pos ⟨by decide, h⟩, if_neg h]

/-- The relay on a synthesizer event appends the agent event and one token
event per word, stamping first_token_at at the first word. -/
theorem relayStep_synth (acc : RelayAcc) (st : AgentState) :
    relayStep acc ("synthesizer", st) =
      (match pyWords st.finalAnswer with
       | [] => { acc with events := acc.events ++ [SSEEvent.agent "synthesizer"] }
       | w :: ws =>
         { events := (acc.events ++ [SSEEvent.agent "synthesizer"]) ++
             ((w :: ws).map (fun x => SSEEvent.token (x ++ " "))),
           firstTokenAt := if acc.firstTokenAt.isNone then some acc.clock else acc.firstTokenAt,
           clock := if acc.firstTokenAt.isNone then acc.clock + 1 else acc.clock }) := by
  unfold relayStep
  dsimp only
  rw [if_neg (fun h => absurd h.1 (by decide)), if_pos (by decide)]

/-- first_token_at is stamped during the relay iff the final answer has at
least one word. -/
theorem relay_firstTokenAt (s1 s2 s3 s4 : AgentState) (evs0 : List SSEEvent) (c0 : Nat) :
    (([("planner", s1), ("worker", s2), ("critic", s3), ("synthesizer", s4)]).foldl
        relayStep ⟨evs0, none, c0⟩).firstTokenAt.isNone =
      (pyWords s4.finalAnswer).isEmpty := by
  simp only [List.foldl_cons, List.foldl_nil, relayStep_planner, relayStep_worker,
    relayStep_critic, relayStep_synth]
  by_cases hw : s2.toolCalls = []
  · simp only [if_pos hw]
    cases hpw : pyWords s4.finalAnswer with
    | nil => rfl
    | cons w ws => rfl
  · simp only [if_neg hw]
    cases hpw : pyWords s4.finalAnswer with
    | nil => rfl
    | cons w ws => rfl

/-- calculate_ttft is None exactly when no first token was stamped. -/
theorem calcTtft_isNone (rs : Nat) (ft : Option Nat) :
    (calcTtft rs ft).isNone = ft.isNone := by
  cases ft <;> rfl

/-- tokenTexts distributes over append. -/
theorem tokenTexts_append (a b : List SSEEvent) :
    tokenTexts (a ++ b) = tokenTexts a ++ tokenTexts b := by
  simp [tokenTexts]

/-- Tool-call events carry no token text. -/
theorem tokenTexts_toolEvents (tcs : List ToolCall) : tokenTexts (toolEvents tcs) = [] := by
  induction tcs with
  | nil => rfl
  | cons h t ih =>
    simp only [toolEvents, List.foldr_cons] at ih ⊢
    simp only [tokenTexts, List.filterMap_cons] at ih ⊢
    exact ih

/-- An agent event carries no token text. -/
theorem tokenTexts_agent (n : String) : tokenTexts [SSEEvent.agent n] = [] := rfl

/-- No events, no token texts. -/
theorem tokenTexts_nil : tokenTexts [] = [] := rfl

/-- The done event carries no token text. -/
theorem tokenTexts_done (a : String) (sg : List String) (t u : Option Nat) :
    tokenTexts [SSEEvent.done a sg t u] = [] := rfl

/-- The token texts of the emitted token events are the words with their
trailing spaces. -/
theorem tokenTexts_tokens (l : List String) :
    tokenTexts (l.map (fun x => SSEEvent.token (x ++ " "))) = l.map (fun x => x ++ " ") := by
  induction l with
  | nil => rfl
  | cons h t ih =>
    simp only [List.map_cons, tokenTexts, List.filterMap_cons] at ih ⊢
    rw [ih]

/-- The token texts the relay emits over a four-stage trace are exactly the
whitespace-delimited words of the synthesizer state, each with a trailing
space. -/
theorem relay_tokenTexts (s1 s2 s3 s4 : AgentState) (evs0 : List SSEEvent)
    (ft0 : Option Nat) (c0 : Nat) :
    tokenTexts (([("planner", s1), ("worker", s2), ("critic", s3), ("synthesizer", s4)]).foldl
        relayStep ⟨evs0, ft0, c0⟩).events =
      tokenTexts evs0 ++ (pyWords s4.finalAnswer).map (fun w => w ++ " ") := by
  simp only [List.foldl_cons, List.foldl_nil, relayStep_planner, relayStep_worker,
    relayStep_critic, relayStep_synth]
  by_cases hw : s2.toolCalls = []
  · simp only [if_pos hw]
    cases hpw : pyWords s4.finalAnswer with
    | nil =>
      simp only [tokenTexts_append, tokenTexts_agent, tokenTexts_nil, List.map_nil,
        List.append_nil]
    | cons w ws =>
      simp only [tokenTexts_append, tokenTexts_agent, tokenTexts_nil, List.append_nil]
      rw [tokenTexts_tokens]
  · simp only [if_neg hw]
    cases hpw : pyWords s4.finalAnswer with
    | nil =>
      simp only [tokenTexts_append, tokenTexts_agent, tokenTexts_nil, tokenTexts_toolEvents,
        List.map_nil, List.append_nil]
    | cons w ws =>
      simp only [tokenTexts_append, tokenTexts_agent, tokenTexts_nil, tokenTexts_toolEvents,
        List.append_nil]
      rw [tokenTexts_tokens]

/-- Whole-run reconstruction: the token texts of a streamed request are the
words of done.fullText, each with a trailing space. -/
theorem streamChat_tokenTexts (inp : ChatInput) (o : Oracles) (fuel : Nat) :
    tokenTexts (streamChat inp o fuel).events =
      (pyWords (streamChat inp o fuel).doneFullText).map (fun w => w ++ " ") := by
  simp only [streamChat, runPipeline_eq]
  rw [tokenTexts_append, relay_tokenTexts, tokenTexts_done]
  simp only [tokenTexts_nil, List.append_nil, List.nil_append]

/-- ttftMs is null exactly when no token events were emitted. -/
theorem streamChat_ttft_isNone (inp : ChatInput) (o : Oracles) (fuel : Nat) :
    (streamChat inp o fuel).ttftMs.isNone =
      (tokenTexts (streamChat inp o fuel).events).isEmpty := by
  rw [streamChat_tokenTexts]
  simp only [streamChat, runPipeline_eq]
  rw [calcTtft_isNone, relay_firstTokenAt]
  cases hpw : pyWords ((stage4 o 1
      (createInitialState inp.sessionId inp.userId inp.prompt
        (packContext inp.summary0 inp.msgs 10 3000 inp.prompt).context
        (packContext inp.summary0 inp.msgs 10 3000 inp.prompt).summary
        (packContext inp.summary0 inp.msgs 10 3000 inp.prompt).lastKTurns 0)).state.finalAnswer) with
  | nil => rfl
  | cons w ws => rfl

/-
## Suggestion lemmas
-/

/-- The padding loop always reaches at least 3 suggestions. -/
theorem three_le_padSuggestions_length (l : List String) :
    3 ≤ (padSuggestions l).length := by
  simp only [padSuggestions]
  split
  · simp [defaultSuggestions]
    omega
  · omega

/-- Padding then truncating yields exactly 3 suggestions. -/
theorem padSuggestions_take_length (l : List String) :
    ((padSuggestions l).take 3).length = 3 := by
  have h := three_le_padSuggestions_length l
  simp [List.length_take]
  omega

/-- synthesizer_node always returns exactly 3 suggestions, on the parse path
as well as the exception path. -/
theorem synthesizerNode_suggestions_length (r : Option String) (c : Nat) (s : AgentState) :
    (synthesizerNode r c s).state.suggestions.length = 3 := by
  cases r with
  | none => rfl
  | some response => exact padSuggestions_take_length _

/-
## Worker accumulation lemmas
-/

/-- The subtask step only appends to the incoming tool_calls list: shifting a
prefix into the accumulator shifts it out of the result unchanged. -/
theorem workerStep_toolCalls_shift (sid : String) (d : Nat → Except String (List String))
    (acc : WorkerAcc) (pre : List ToolCall) (task : String) :
    workerStep sid d { acc with toolCalls := pre ++ acc.toolCalls } task =
      { workerStep sid d acc task with
        toolCalls := pre ++ (workerStep sid d acc task).toolCalls } := by
  unfold workerStep
  by_cases h : needsDbAccess task = true
  · simp only [h, if_true]
    cases d acc.callIdx with
    | ok data => simp [List.append_assoc]
    | error e => simp
  · simp only [h]
    rw [if_neg (by simp [h]), if_neg (by simp [h])]

/-- The whole subtask loop only appends to the incoming tool_calls list. -/
theorem workerFold_toolCalls_shift (sid : String) (d : Nat → Except String (List String))
    (tasks : List String) (acc : WorkerAcc) (pre : List ToolCall) :
    tasks.foldl (workerStep sid d) { acc with toolCalls := pre ++ acc.toolCalls } =
      { tasks.foldl (workerStep sid d) acc with
        toolCalls := pre ++ (tasks.foldl (workerStep sid d) acc).toolCalls } := by
  induction tasks generalizing acc with
  | nil => simp
  | cons t ts ih =>
    simp only [List.foldl_cons]
    rw [workerStep_toolCalls_shift, ih]

/-- Every subtask produces exactly one finding (error or not). -/
theorem workerStep_findings_length (sid : String) (d : Nat → Except String (List String))
    (acc : WorkerAcc) (task : String) :
    (workerStep sid d acc task).findings.length = acc.findings.length + 1 := by
  unfold workerStep
  by_cases h : needsDbAccess task = true
  · simp only [h, if_true]
    cases d acc.callIdx <;> simp
  · rw [if_neg (by simp [h])]
    simp

/-- The loop produces one finding per subtask. -/
theorem workerFold_findings_length (sid : String) (d : Nat → Except String (List String))
    (tasks : List String) (acc : WorkerAcc) :
    (tasks.foldl (workerStep sid d) acc).findings.length =
      acc.findings.length + tasks.length := by
  induction tasks generalizing acc with
  | nil => simp
  | cons t ts ih =>
    simp only [List.foldl_cons, List.length_cons]
    rw [ih, workerStep_findings_length]
    omega

/-- Every data-access subtask leaves exactly one entry in DBTools' own log,
error calls included. -/
theorem workerStep_dbLogs_length (sid : String) (d : Nat → Except String (List String))
    (acc : WorkerAcc) (task : String) :
    (workerStep sid d acc task).dbLogs.length =
      acc.dbLogs.length + (if needsDbAccess task then 1 else 0) := by
  unfold workerStep
  by_cases h : needsDbAccess task = true
  · simp only [h, if_true]
    cases d acc.callIdx <;> simp
  · rw [if_neg (by simp [h])]
    simp [h]

/-- The loop logs one DBTools entry per data-access subtask. -/
theorem workerFold_dbLogs_length (sid : String) (d : Nat → Except String (List String))
    (tasks : List String) (acc : WorkerAcc) :
    (tasks.foldl (workerStep sid d) acc).dbLogs.length =
      acc.dbLogs.length + (tasks.filter needsDbAccess).length := by
  induction tasks generalizing acc with
  | nil => simp
  | cons t ts ih =>
    simp only [List.foldl_cons, List.filter_cons]
    rw [ih, workerStep_dbLogs_length]
    by_cases h : needsDbAccess t = true
    · simp [h]
      omega
    · simp [h]

/-- A subtask step never stores a non-ok result in the state tool_calls list:
the error path raises before the worker can log it. -/
theorem workerStep_toolCalls_allOk (sid : String) (d : Nat → Except String (List String))
    (acc : WorkerAcc) (task : String)
    (h : acc.toolCalls.all (fun tc => tc.result.status == "ok") = true) :
    (workerStep sid d acc task).toolCalls.all (fun tc => tc.result.status == "ok") = true := by
  unfold workerStep
  by_cases hd : needsDbAccess task = true
  · simp only [hd, if_true]
    cases d acc.callIdx with
    | ok data =>
      simp only [List.all_append, h, Bool.true_and]
      rfl
    | error e => exact h
  · rw [if_neg (by simp [hd])]
    exact h

/-- The whole loop preserves the all-ok property of the state tool_calls. -/
theorem workerFold_toolCalls_allOk (sid : String) (d : Nat → Except String (List String))
    (tasks : List String) (acc : WorkerAcc)
    (h : acc.toolCalls.all (fun tc => tc.result.status == "ok") = true) :
    (tasks.foldl (workerStep sid d) acc).toolCalls.all
      (fun tc => tc.result.status == "ok") = true := by
  induction tasks generalizing acc with
  | nil => exact h
  | cons t ts ih =>
    simp only [List.foldl_cons]
    exact ih _ (workerStep_toolCalls_allOk sid d acc t h)

/-- A subtask step advances the db-call index exactly on data-access subtasks. -/
theorem workerStep_callIdx (sid : String) (d : Nat → Except String (List String))
    (acc : WorkerAcc) (task : String) :
    (workerStep sid d acc task).callIdx =
      acc.callIdx + (if needsDbAccess task then 1 else 0) := by
  unfold workerStep
  by_cases h : needsDbAccess task = true
  · simp only [h, if_true]
    cases d acc.callIdx <;> simp
  · rw [if_neg (by simp [h])]
    simp [h]

/-- A subtask step appends one state tool-call entry exactly when it is a
data-access subtask whose backend call succeeds. -/
theorem workerStep_toolCalls_length (sid : String) (d : Nat → Except String (List String))
    (acc : WorkerAcc) (task : String) :
    (workerStep sid d acc task).toolCalls.length =
      acc.toolCalls.length +
        (if needsDbAccess task then
          (match d acc.callIdx with
           | Except.ok _ => 1
           | Except.error _ => 0)
         else 0) := by
  unfold workerStep
  by_cases h : needsDbAccess task = true
  · simp only [h, if_true]
    cases d acc.callIdx <;> simp
  · rw [if_neg (by simp [h])]
    simp [h]

/-- The subtask loop appends exactly one state tool-call entry per successful
data-access query, and none for erroring or non-data subtasks. -/
theorem workerFold_toolCalls_length (sid : String) (d : Nat → Except String (List String))
    (tasks : List String) (acc : WorkerAcc) :
    (tasks.foldl (workerStep sid d) acc).toolCalls.length =
      acc.toolCalls.length + dbSuccessCount d tasks acc.callIdx := by
  induction tasks generalizing acc with
  | nil => simp [dbSuccessCount]
  | cons t ts ih =>
    simp only [List.foldl_cons, dbSuccessCount]
    rw [ih, workerStep_toolCalls_length, workerStep_callIdx]
    by_cases h : needsDbAccess t = true
    · simp only [h, if_true]
      cases d acc.callIdx with
      | ok v =>
        simp
        omega
      | error e => simp
    · simp only [h]
      rw [if_neg (by simp [h]), if_neg (by simp [h]), if_neg (by simp [h])]
      simp

/-- One worker pass appends exactly one state tool-call entry per successful
data-access query: a successful query IS recorded in the request state. -/
theorem workerNewCalls_length (d : Nat → Except String (List String)) (ci c : Nat)
    (s : AgentState) :
    (workerNewCalls d ci c s).length = dbSuccessCount d s.subtasks ci := by
  unfold workerNewCalls
  rw [workerFold_toolCalls_length]
  simp

/-- Every tool-call entry a step appends records the db.find tool name and the
bounded query args (messages collection, sessionId filter, limit 50). -/
theorem workerStep_toolCalls_shape (sid : String) (d : Nat → Except String (List String))
    (acc : WorkerAcc) (task : String)
    (h : acc.toolCalls.all (fun tc => tc.tool == "db.find" && tc.argsCollection == "messages"
      && tc.argsSessionFilter == sid && tc.argsLimit == 50) = true) :
    (workerStep sid d acc task).toolCalls.all
      (fun tc => tc.tool == "db.find" && tc.argsCollection == "messages"
        && tc.argsSessionFilter == sid && tc.argsLimit == 50) = true := by
  unfold workerStep
  by_cases hd : needsDbAccess task = true
  · simp only [hd, if_true]
    cases d acc.callIdx with
    | ok data =>
      simp only [List.all_append, h, Bool.true_and]
      simp
    | error e => exact h
  · rw [if_neg (by simp [hd])]
    exact h

/-- The whole loop preserves the tool-name/args shape of the state tool
calls. -/
theorem workerFold_toolCalls_shape (sid : String) (d : Nat → Except String (List String))
    (tasks : List String) (acc : WorkerAcc)
    (h : acc.toolCalls.all (fun tc => tc.tool == "db.find" && tc.argsCollection == "messages"
      && tc.argsSessionFilter == sid && tc.argsLimit == 50) = true) :
    (tasks.foldl (workerStep sid d) acc).toolCalls.all
      (fun tc => tc.tool == "db.find" && tc.argsCollection == "messages"
        && tc.argsSessionFilter == sid && tc.argsLimit == 50) = true := by
  induction tasks generalizing acc with
  | nil => exact h
  | cons t ts ih =>
    simp only [List.foldl_cons]
    exact ih _ (workerStep_toolCalls_shape sid d acc t h)

/-- worker_node appends its pass's tool calls to the accumulated list. -/
theorem workerNode_toolCalls_eq (d : Nat → Except String (List String)) (ci c : Nat)
    (s : AgentState) :
    (workerNode d ci c s).state.toolCalls = s.toolCalls ++ workerNewCalls d ci c s := by
  show (workerPassAcc d ci c s).toolCalls = _
  unfold workerPassAcc workerNewCalls
  have hacc : (⟨[], s.toolCalls, [], ci, c + 1⟩ : WorkerAcc) =
      { (⟨[], [], [], ci, c + 1⟩ : WorkerAcc) with toolCalls := s.toolCalls ++ [] } := by
    simp
  rw [hacc, workerFold_toolCalls_shift]

/-- worker_node's findings are rebuilt from the current pass only, plus the
synthetic retry finding on a retry pass. -/
theorem workerNode_findings_eq (d : Nat → Except String (List String)) (ci c : Nat)
    (s : AgentState) :
    (workerNode d ci c s).state.workerFindings =
      (workerPassAcc d ci c s).findings ++
        (if 0 < s.retryCount then [retryFinding s.retryCount] else []) := by
  by_cases h : 0 < s.retryCount <;>
    simp [workerNode, workerPassAcc, retryFinding, h]

/-- worker_node's output findings do not depend on the findings already in the
state: the prior pass's findings are discarded. -/
theorem workerNode_findings_fresh (d : Nat → Except String (List String)) (ci c : Nat)
    (s : AgentState) (fs : List Finding) :
    (workerNode d ci c { s with workerFindings := fs }).state.workerFindings =
      (workerNode d ci c s).state.workerFindings := rfl

/-
## Critic lemmas
-/

/-- The source's failed-tool count is nonzero exactly when some tool call has a
non-ok status. -/
theorem criticFailedToolCount_ne_zero (tcs : List ToolCall) :
    (criticFailedToolCount tcs ≠ 0) ↔ tcs.any (fun tc => tc.result.status ≠ "ok") = true := by
  simp [criticFailedToolCount, List.length_eq_zero, List.filter_eq_nil_iff]

/-- Words produced by the whitespace split are never empty. -/
theorem pyWords_mem_ne_empty (s w : String) (hw : w ∈ pyWords s) : w ≠ "" := by
  simp only [pyWords, List.mem_filter] at hw
  simpa using hw.2

/-- With no findings the concatenated finding text is empty, so the keyword
overlap is zero. -/
theorem relevanceScore_empty (p : String) : relevanceScore p [] = 0 := by
  unfold relevanceScore
  simp only [List.map_nil]
  rw [List.length_eq_zero, List.filter_eq_nil_iff]
  intro kw hkw
  have hne : kw ≠ "" := by
    apply pyWords_mem_ne_empty (pyLower p)
    exact List.mem_of_mem_take (List.mem_dedup.mp hkw)
  show ¬ strIn kw (pyLower (pyIntercalate " " [])) = true
  have hlow : pyLower (pyIntercalate " " []) = "" := rfl
  rw [hlow]
  simp only [strIn]
  show ¬ containsSub "".toList kw.toList = true
  have hkl : kw.toList ≠ [] := by
    intro hc
    exact hne (by cases kw with | mk l => simpa [String.toList] using congrArg String.mk hc)
  simp only [containsSub, List.isEmpty_iff]
  exact fun h => hkl h

/-- critic_node's sequential overwrite is THE last-failing-check policy: the
reported feedback is the message of the last failing check in the check order
(no-findings, tool-failures, relevance), and validation passes iff all three
checks pass. -/
theorem criticDecision_spec (s : AgentState) :
    (criticDecision s).2 = lastFailingFeedback s ∧
    (criticDecision s).1 =
      !(checkNoFindings s || checkToolFailures s || checkNotRelevant s) := by
  unfold criticDecision lastFailingFeedback checkNoFindings checkToolFailures checkNotRelevant
  by_cases hB : s.toolCalls.any (fun tc => tc.result.status ≠ "ok") = true
  · have hBc : criticFailedToolCount s.toolCalls ≠ 0 :=
      (criticFailedToolCount_ne_zero s.toolCalls).mpr hB
    have hBne : s.toolCalls.isEmpty = false := by
      cases htc : s.toolCalls with
      | nil => rw [htc] at hB; simp at hB
      | cons a l => simp [htc]
    have hEx : ∃ x ∈ s.toolCalls, ¬x.result.status = "ok" := by
      simpa using hB
    by_cases hC : relevanceScore s.userPrompt s.workerFindings = 0 <;>
      by_cases hA : s.workerFindings.isEmpty = true <;>
        simp [hA, hB, hC, hBc, hBne, hEx]
  · have hBc : criticFailedToolCount s.toolCalls = 0 := by
      by_contra hcon
      exact hB ((criticFailedToolCount_ne_zero s.toolCalls).mp hcon)
    have hNx : ∀ x ∈ s.toolCalls, x.result.status = "ok" := by
      intro x hx
      by_contra hxo
      exact hB (List.any_eq_true.mpr ⟨x, hx, by simpa using hxo⟩)
    have hNx2 : ¬ ∃ x ∈ s.toolCalls, ¬x.result.status = "ok" := by
      push_neg
      exact hNx
    by_cases hC : relevanceScore s.userPrompt s.workerFindings = 0 <;>
      by_cases hA : s.workerFindings.isEmpty = true <;>
        by_cases hE : s.toolCalls.isEmpty = true <;>
          simp [hA, hB, hC, hE, hBc, hNx, hNx2]
    all_goals exact hNx

/-
## Planner lemmas
-/

/-- Both parse-failure fallback plans have exactly 3 subtasks. -/
theorem plannerFallback_length (up : String) : (plannerFallback up).1.length = 3 := by
  by_cases h : needsHistory up = true <;> simp [plannerFallback, h]

/-- planner_node on a generation response: the parsed subtasks, or the
deterministic fallback when zero were parsed. -/
theorem plannerNode_subtasks_some (resp : String) (c : Nat) (s : AgentState) :
    (plannerNode (some resp) c s).state.subtasks =
      if (plannerParse resp).1.isEmpty then (plannerFallback s.userPrompt).1
      else (plannerParse resp).1 := by
  by_cases h : (plannerParse resp).1.isEmpty = true <;>
    simp [plannerNode, h]

/-- planner_node when the generation call raised: the critical fallback. -/
theorem plannerNode_subtasks_none (c : Nat) (s : AgentState) :
    (plannerNode none c s).state.subtasks = (plannerExceptFallback s.userPrompt).1 := rfl

/-- planner_node when the generation call raised: the critical fallback plan. -/
theorem plannerNode_plan_none (c : Nat) (s : AgentState) :
    (plannerNode none c s).state.dataAccessPlan = (plannerExceptFallback s.userPrompt).2 := rfl

/-- The fallback plan text is history-oriented exactly when the prompt contains
a memory-referencing keyword. -/
theorem plannerFallback_plan (up : String) :
    (plannerFallback up).2 =
      if needsHistory up then "Query messages collection for session history"
      else "No database access needed for this request" := by
  by_cases h : needsHistory up = true <;> simp [plannerFallback, h]

/-- planner_node always returns at least one subtask. -/
theorem plannerNode_subtasks_length (r : Option String) (c : Nat) (s : AgentState) :
    1 ≤ (plannerNode r c s).state.subtasks.length := by
  cases r with
  | none => simp [plannerNode_subtasks_none, plannerExceptFallback]
  | some resp =>
    rw [plannerNode_subtasks_some]
    by_cases h : (plannerParse resp).1.isEmpty = true
    · simp [h, plannerFallback_length]
    · cases hp : (plannerParse resp).1 with
      | nil => rw [hp] at h; simp at h
      | cons a l => simp [h, hp]

/-- planner_node always returns a non-empty data-access plan. -/
theorem plannerNode_plan_ne (r : Option String) (c : Nat) (s : AgentState) :
    ((plannerNode r c s).state.dataAccessPlan == "") = false := by
  cases r with
  | none =>
    rw [plannerNode_plan_none]
    rfl
  | some resp =>
    have hpl : (plannerNode (some resp) c s).state.dataAccessPlan =
        (if ((if (plannerParse resp).1.isEmpty then plannerFallback s.userPrompt
              else plannerParse resp).2 = "")
         then "Determine data needs based on request context"
         else (if (plannerParse resp).1.isEmpty then plannerFallback s.userPrompt
               else plannerParse resp).2) := rfl
    rw [hpl]
    by_cases h : ((if (plannerParse resp).1.isEmpty then plannerFallback s.userPrompt
        else plannerParse resp).2 = "")
    · rw [if_pos h]
      decide
    · rw [if_neg h]
      exact beq_eq_false_iff_ne.mpr h

/-
## Context-packing lemmas
-/

/-- The store returns at most K messages when asked for the last K (K > 0). -/
theorem getSessionMessages_length_le (msgs : List Msg) (K : Nat) (hK : 0 < K) :
    (getSessionMessages msgs (some K)).length ≤ K := by
  simp only [getSessionMessages]
  rw [if_neg (by omega)]
  simp [List.length_take]

/-- For any positive K the re-summarization branch of pack_context is
unreachable: recent_messages was fetched with limit K, so its length can never
exceed K. -/
theorem packContext_no_resummary (su : Option String) (msgs : List Msg) (K budget : Nat)
    (prompt : String) (hK : 0 < K) :
    (packContext su msgs K budget prompt).summaryUpdated = false ∧
    (packContext su msgs K budget prompt).summaryPersisted = none := by
  have hlen := getSessionMessages_length_le msgs K hK
  simp only [packContext]
  rw [if_neg (fun h => absurd h.2 (by omega))]
  exact ⟨rfl, rfl⟩

/-- Length of a three-part newline join. -/
theorem pyIntercalate3_length (a b c : String) :
    (pyIntercalate "\n" [a, b, c]).length = a.length + b.length + c.length + 2 := by
  have h1 : ("\n" : String).length = 1 := by decide
  simp only [pyIntercalate, String.length_append, h1]
  omega

/-- The 15-turn session with the 13000-character prompt satisfies the
re-summarization trigger as the specification states it: the token estimate
exceeds the default budget of 3000 and the session has more than K = 10
persisted turns. -/
theorem c2Input_exceeds_budget :
    (packContext none c2Msgs 10 3000 c2Prompt).tokenCount > 3000 := by
  have hrecne : ((getSessionMessages c2Msgs (some 10)).isEmpty = false) := by decide
  have hlen10 : (getSessionMessages c2Msgs (some 10)).length = 10 := by decide
  have hplen : c2Prompt.length = 13000 := by
    unfold c2Prompt
    rw [String.length_mk, List.length_replicate]
  have hparts : buildParts none (getSessionMessages c2Msgs (some 10)) c2Prompt =
      [systemMeta, turnsBlock (getSessionMessages c2Msgs (some 10)),
       "\n[Current Request]\nUSER: " ++ c2Prompt] := by
    simp [buildParts, hrecne]
  have hctx : (packContext none c2Msgs 10 3000 c2Prompt).tokenCount =
      estimateTokens (pyIntercalate "\n"
        (buildParts none (getSessionMessages c2Msgs (some 10)) c2Prompt)) := by
    simp only [packContext]
    rw [if_neg (fun h => absurd h.2 (by rw [hlen10] at *; omega))]
  have hsys : systemMeta.length = 89 := by decide
  have hreq : ("\n[Current Request]\nUSER: ").length = 25 := by decide
  rw [hctx, hparts]
  unfold estimateTokens
  rw [pyIntercalate3_length, String.length_append, hsys, hreq, hplen]
  omega

/-
## Claim theorems
-/

/-- C1: The claim states that a first failed validation sets retryCount to 1
and re-runs the Executor exactly once before the Composer.  The code never
re-runs the Executor: critic_node increments retry_count BEFORE should_retry
is evaluated, so after the first failed validation the edge condition
retry_count < 1 is already false and the controller goes straight to the
synthesizer.  This theorem shows (a) every run's trace, for every fuel, is the
straight line planner, worker, critic, synthesizer; (b) after critic_node the
conditional edge always picks the synthesizer; (c) a concrete run whose single
validation fails (retry_count ends at 1) still executes the worker exactly
once. -/
theorem c1_retry_edge_never_taken :
    (∀ (inp : ChatInput) (o : Oracles) (fuel : Nat),
      (streamChat inp o fuel).trace.map Prod.fst =
        ["planner", "worker", "critic", "synthesizer"]) ∧
    (∀ (c : Nat) (s : AgentState), shouldRetry (criticNode c s).state = "synthesizer") ∧
    ((streamChat c1Input c1Oracles 5).finalState.criticPassed = false ∧
     (streamChat c1Input c1Oracles 5).finalState.retryCount = 1) := by
  refine ⟨fun inp o fuel => ?_, shouldRetry_after_critic, by decide, by decide⟩
  simp only [streamChat, runPipeline_eq]
  rfl

/-- C2: The claim states that when the context exceeds the token budget and
the session has more persisted turns than K, exactly one re-summarization
occurs.  The code tests `len(recent_messages) > K` where recent_messages was
fetched with limit K, so the branch is unreachable for every positive K: no
re-summarization and no summary persistence ever happen, even for a session
with 15 persisted turns and a context far beyond the default 3000-token
budget. -/
theorem c2_resummarization_never_triggers :
    (∀ (su : Option String) (msgs : List Msg) (K budget : Nat) (prompt : String),
      (packContext su msgs (K + 1) budget prompt).summaryUpdated = false ∧
      (packContext su msgs (K + 1) budget prompt).summaryPersisted = none) ∧
    ((packContext none c2Msgs 10 3000 c2Prompt).tokenCount > 3000 ∧
     c2Msgs.length = 15 ∧
     (packContext none c2Msgs 10 3000 c2Prompt).summaryUpdated = false ∧
     (packContext none c2Msgs 10 3000 c2Prompt).summaryPersisted = none) := by
  refine ⟨fun su msgs K budget prompt =>
      packContext_no_resummary su msgs (K + 1) budget prompt (Nat.succ_pos K),
    c2Input_exceeds_budget, by decide, ?_, ?_⟩
  · exact (packContext_no_resummary none c2Msgs 10 3000 c2Prompt (by omega)).1
  · exact (packContext_no_resummary none c2Msgs 10 3000 c2Prompt (by omega)).2

/-- C3: The claim states ttftMs ≤ totalMs whenever both are non-null.  The
code stamps completed_at at synthesizer exit and only then simulates token
streaming, so first_token_at is read strictly later and ttftMs exceeds totalMs
on every run that emits a token (concrete run: totalMs = 9000 < ttftMs =
10000).  The claim's second half holds: ttftMs is null exactly when zero token
events were emitted (general Bool equation, plus a concrete zero-token run). -/
theorem c3_ttft_exceeds_total :
    (∀ (inp : ChatInput) (o : Oracles) (fuel : Nat),
      (streamChat inp o fuel).ttftMs.isNone =
        (tokenTexts (streamChat inp o fuel).events).isEmpty) ∧
    ((streamChat c1Input c1Oracles 5).ttftMs.isSome = true ∧
     (streamChat c1Input c1Oracles 5).totalMs.isSome = true ∧
     (streamChat c1Input c1Oracles 5).totalMs.getD 0 <
       (streamChat c1Input c1Oracles 5).ttftMs.getD 0) ∧
    ((streamChat c3bInput c3bOracles 5).ttftMs = none ∧
     (tokenTexts (streamChat c3bInput c3bOracles 5).events).length = 0) :=
  ⟨streamChat_ttft_isNone, by decide, by decide⟩

/-- C4 counterexample: the concatenation of the token texts is NOT byte-equal
to done.fullText — it carries one trailing space per word (concrete run:
"Greetings to you " versus "Greetings to you"). -/
theorem c4_concat_not_exact_counterexample :
    (String.join (tokenTexts (streamChat c1Input c1Oracles 5).events) ==
      (streamChat c1Input c1Oracles 5).doneFullText) = false := by decide

/-- C4 amended: the reconstruction law that actually holds — the token texts,
in emission order, are exactly the whitespace-delimited words of done.fullText
each with a trailing space appended; their concatenation therefore equals
fullText only up to whitespace normalization and a trailing space, not
exactly. -/
theorem c4_reconstruction_amended :
    ∀ (inp : ChatInput) (o : Oracles) (fuel : Nat),
      tokenTexts (streamChat inp o fuel).events =
        (pyWords (streamChat inp o fuel).doneFullText).map (fun w => w ++ " ") ∧
      String.join (tokenTexts (streamChat inp o fuel).events) =
        String.join ((pyWords (streamChat inp o fuel).doneFullText).map (fun w => w ++ " ")) :=
  fun inp o fuel =>
    ⟨streamChat_tokenTexts inp o fuel,
     congrArg String.join (streamChat_tokenTexts inp o fuel)⟩

/-- C5: retryCount starts at 0, stays in {0, 1} at every traced state of every
run, ends at 1 exactly when the (single) validation failed, and is written by
no stage but the critic, which increments it exactly on a failed validation.
(The invariant holds in the code precisely because the broken retry edge never
lets the critic run twice.) -/
theorem c5_retry_count_invariant :
    (∀ (sid uid up ctx : String) (su : Option String) (lk : List Msg) (now : Nat),
      (createInitialState sid uid up ctx su lk now).retryCount = 0) ∧
    (∀ (inp : ChatInput) (o : Oracles) (fuel : Nat),
      (streamChat inp o fuel).trace.all (fun p => p.2.retryCount ≤ 1) = true ∧
      (streamChat inp o fuel).finalState.retryCount =
        (if (streamChat inp o fuel).finalState.criticPassed then 0 else 1)) ∧
    (∀ (r : Option String) (c : Nat) (s : AgentState),
      (plannerNode r c s).state.retryCount = s.retryCount) ∧
    (∀ (d : Nat → Except String (List String)) (ci c : Nat) (s : AgentState),
      (workerNode d ci c s).state.retryCount = s.retryCount) ∧
    (∀ (r : Option String) (c : Nat) (s : AgentState),
      (synthesizerNode r c s).state.retryCount = s.retryCount) ∧
    (∀ (c : Nat) (s : AgentState),
      (criticNode c s).state.retryCount =
        (if (criticNode c s).state.criticPassed then s.retryCount else s.retryCount + 1)) :=
  ⟨fun _ _ _ _ _ _ _ => rfl, streamChat_retry_facts, plannerNode_retryCount,
   workerNode_retryCount, synthesizerNode_retryCount, criticNode_retryCount⟩

/-- C6 counterexample: when the query collaborator raises, the Executor
records an error finding but NO tool-call entry in the request state — the
claim's "as both a finding and a tool-call log entry" fails.  (DBTools does
log the error internally, but that log never reaches the state.) -/
theorem c6_error_toolcall_missing_counterexample :
    (workerNode c6Oracle 0 0 c6State).state.toolCalls = [] ∧
    (workerNode c6Oracle 0 0 c6State).state.workerFindings =
      [⟨"fetch recent records", "Error fetching data: boom", FData.docs []⟩] ∧
    (workerNode c6Oracle 0 0 c6State).dbLogs.length = 1 := by decide

/-- C6 amended: every subtask yields exactly one finding (the stage continues
past errors).  On success the Executor records the outcome as both a finding
and a state tool-call entry: the state tool-call list gains exactly one entry
per successful data-access query (dbSuccessCount), each carrying the db.find
tool name, the bounded args and an ok-status result.  On error no entry is
appended to the state's toolCalls — DBTools.find raises before worker_node can
log it — and the error outcome reaches only DBTools' own internal log, which
records one entry per data-access subtask, success or error.  A concrete
successful query shows the recorded entry and its paired finding. -/
theorem c6_error_handling_amended :
    (∀ (d : Nat → Except String (List String)) (ci c : Nat) (s : AgentState),
      (workerNode d ci c s).state.workerFindings.length =
        s.subtasks.length + (if 0 < s.retryCount then 1 else 0) ∧
      (workerNode d ci c s).state.toolCalls = s.toolCalls ++ workerNewCalls d ci c s ∧
      (workerNewCalls d ci c s).length = dbSuccessCount d s.subtasks ci ∧
      (workerNewCalls d ci c s).all (fun tc => tc.result.status == "ok") = true ∧
      (workerNewCalls d ci c s).all
        (fun tc => tc.tool == "db.find" && tc.argsCollection == "messages"
          && tc.argsSessionFilter == s.sessionId && tc.argsLimit == 50) = true ∧
      (workerNode d ci c s).dbLogs.length = (s.subtasks.filter needsDbAccess).length) ∧
    ((workerNode c6OkOracle 0 0 c6State).state.toolCalls =
      [{ tool := "db.find", argsCollection := "messages", argsSessionFilter := "s1",
         argsLimit := 50, result := DbResult.ok 2 ["docA", "docB"], latencyMs := 1,
         timestamp := 5 }] ∧
     (workerNode c6OkOracle 0 0 c6State).state.workerFindings =
      [⟨"fetch recent records", "Retrieved 2 messages from conversation history",
        FData.docs ["docA", "docB"]⟩]) := by
  constructor
  · intro d ci c s
    refine ⟨?_, workerNode_toolCalls_eq d ci c s, workerNewCalls_length d ci c s, ?_, ?_, ?_⟩
    · rw [workerNode_findings_eq, List.length_append]
      unfold workerPassAcc
      rw [workerFold_findings_length]
      by_cases h : 0 < s.retryCount <;> simp [h]
    · unfold workerNewCalls
      exact workerFold_toolCalls_allOk _ _ _ _ rfl
    · unfold workerNewCalls
      exact workerFold_toolCalls_shape _ _ _ _ rfl
    · show (workerPassAcc d ci c s).dbLogs.length = _
      unfold workerPassAcc
      rw [workerFold_dbLogs_length]
      simp
  · exact ⟨by decide, by decide⟩

/-- C7 counterexample: on a retry pass the prior finding is NOT in the output
findings list — prior findings are discarded, contradicting "no prior finding
or tool-call entry is discarded". -/
theorem c7_prior_findings_dropped_counterexample :
    ((workerNode c7Oracle 0 0 c7State).state.workerFindings.contains c7Prior) = false ∧
    c7State.workerFindings = [c7Prior] ∧
    0 < c7State.retryCount := by decide

/-- C7 amended: across a retry pass the tool-call entries do accumulate (the
output list is the input list with the pass's calls appended, never reset),
but the findings list is rebuilt from the current pass alone — it does not
depend on the findings already in the state — with the synthetic retry finding
appended when retryCount > 0 on entry. -/
theorem c7_accumulation_amended :
    ∀ (d : Nat → Except String (List String)) (ci c : Nat) (s : AgentState)
      (fs : List Finding),
      (workerNode d ci c s).state.toolCalls = s.toolCalls ++ workerNewCalls d ci c s ∧
      (workerNode d ci c { s with workerFindings := fs }).state.workerFindings =
        (workerNode d ci c s).state.workerFindings ∧
      (workerNode d ci c s).state.workerFindings =
        (workerPassAcc d ci c s).findings ++
          (if 0 < s.retryCount then [retryFinding s.retryCount] else []) :=
  fun d ci c s fs =>
    ⟨workerNode_toolCalls_eq d ci c s, workerNode_findings_fresh d ci c s fs,
     workerNode_findings_eq d ci c s⟩

/-- C8 counterexample: the parser imposes no upper bound of 3 — a response
with four well-formed numbered items yields four subtasks, contradicting
"between 1 and 3 items". -/
theorem c8_four_subtasks_counterexample :
    (plannerNode (some c8Resp) 0 sampleState).state.subtasks.length = 4 := by decide

/-- C8 amended: the Planner always returns at least one subtask and a
non-empty data-access plan and never raises (the model is total, mirroring the
catch-all except); when parsing yields zero subtasks the deterministic
fallback is used, history-retrieval-oriented exactly when the prompt contains
a memory-referencing keyword; when the generation call raises, the critical
fallback is used.  No upper bound of 3 holds on the parsed path. -/
theorem c8_planner_amended :
    ∀ (r : Option String) (c : Nat) (s : AgentState),
      1 ≤ (plannerNode r c s).state.subtasks.length ∧
      ((plannerNode r c s).state.dataAccessPlan == "") = false ∧
      (plannerNode none c s).state.subtasks = (plannerExceptFallback s.userPrompt).1 ∧
      (∀ resp : String, (plannerNode (some resp) c s).state.subtasks =
        (if (plannerParse resp).1.isEmpty then (plannerFallback s.userPrompt).1
         else (plannerParse resp).1)) ∧
      (plannerFallback s.userPrompt).1.length = 3 ∧
      (plannerFallback s.userPrompt).2 =
        (if needsHistory s.userPrompt then "Query messages collection for session history"
         else "No database access needed for this request") :=
  fun r c s =>
    ⟨plannerNode_subtasks_length r c s, plannerNode_plan_ne r c s,
     plannerNode_subtasks_none c s, fun resp => plannerNode_subtasks_some resp c s,
     plannerFallback_length s.userPrompt, plannerFallback_plan s.userPrompt⟩

/-- C9: done.suggestions always has length exactly 3, for every run of the
relay and for every synthesizer input (parse path, padding with the fixed
fillers, truncation, and the exception fallback alike). -/
theorem c9_exactly_three_suggestions :
    (∀ (inp : ChatInput) (o : Oracles) (fuel : Nat),
      (streamChat inp o fuel).doneSuggestions.length = 3) ∧
    (∀ (r : Option String) (c : Nat) (s : AgentState),
      (synthesizerNode r c s).state.suggestions.length = 3) := by
  refine ⟨fun inp o fuel => ?_, synthesizerNode_suggestions_length⟩
  simp only [streamChat, runPipeline]
  exact synthesizerNode_suggestions_length _ _ _

/-- C10: the Validator's reported feedback is the message of the LAST failing
check in the fixed order (empty findings, then failed tool calls, then
relevance), and validationPassed is false iff any check fails; in particular
with an empty findings list the relevance check also fails (zero overlap
against empty text), so the feedback is the relevance message, not the
no-findings message, while validation still fails. -/
theorem c10_last_failing_check_feedback :
    (∀ (c : Nat) (s : AgentState),
      (criticNode c s).state.criticFeedback = lastFailingFeedback s ∧
      (criticNode c s).state.criticPassed =
        !(checkNoFindings s || checkToolFailures s || checkNotRelevant s)) ∧
    (∀ (c : Nat) (s : AgentState),
      checkNotRelevant { s with workerFindings := [] } = true ∧
      (criticNode c { s with workerFindings := [] }).state.criticFeedback =
        "Worker findings may not be relevant to user request." ∧
      (criticNode c { s with workerFindings := [] }).state.criticPassed = false) := by
  constructor
  · intro c s
    exact criticDecision_spec s
  · intro c s
    refine ⟨?_, ?_, ?_⟩
    · simp [checkNotRelevant, relevanceScore_empty]
    · show (criticDecision { s with workerFindings := [] }).2 = _
      simp [criticDecision, relevanceScore_empty]
    · show (criticDecision { s with workerFindings := [] }).1 = false
      simp [criticDecision, relevanceScore_empty]

end Orch
